import Mathlib

/-!
Verification of the climatedelta repository: a shallow embedding of its
pure logic (geodesic math, nearest-station scan, normals extraction,
current-conditions reconciliation, delta classification, and ZIP lookup)
together with theorems settling the specified properties.

Conventions of the embedding:
- Python floats are modelled as ℚ wherever only field arithmetic and
  comparisons occur, and as ℝ where transcendental functions appear
  (the haversine formula).
- Network fetches are inputs: each service function takes the decoded
  payloads (or an oracle function standing for per-candidate fetches)
  as explicit arguments.
- A Python expression that can raise is modelled in Except; a caught
  exception is a handled Except.error.
-/

namespace ClimateDelta

/-- Errors surfaced by the services (spec section 7 names them; in the code
they are raised ValueErrors or uncaught builtin exceptions). -/
inductive Err where
  | NoStationsFound
  | NoQualifyingStation
  | NormalsRowMissing
  | NoObservationStation
  | NoForecastForToday
  deriving DecidableEq, Repr

/-! ## GeoMath: src/src/utils/geo.py -/

/-- Degrees to radians, the model of Python math.radians. -/
noncomputable def radians (x : ℝ) : ℝ := x * Real.pi / 180

/-- Model of Python math.atan2 y x: the argument of the complex number
x + y*i, with range (-pi, pi] and atan2 0 0 = 0, matching math.atan2 on
all inputs that arise here (the first argument is a square root, hence
nonnegative, so the branch cut is never reached). -/
noncomputable def atan2 (y x : ℝ) : ℝ := Complex.arg ⟨x, y⟩

/-- geo.haversine: great-circle distance in kilometres between two
lat/lon pairs (Earth radius 6371 km). -/
noncomputable def haversine (lat1 lon1 lat2 lon2 : ℝ) : ℝ :=
  let R : ℝ := 6371
  let phi1 := radians lat1
  let phi2 := radians lat2
  let dphi := radians (lat2 - lat1)
  let dlam := radians (lon2 - lon1)
  let a := Real.sin (dphi / 2) ^ 2 +
    Real.cos phi1 * Real.cos phi2 * Real.sin (dlam / 2) ^ 2
  2 * R * atan2 (Real.sqrt a) (Real.sqrt (1 - a))

/-- geo.c_to_f: Celsius to Fahrenheit. -/
def c_to_f (celsius : ℚ) : ℚ := celsius * 9 / 5 + 32

/-- C9: the great-circle distance function is symmetric, vanishes on
identical points, and is always nonnegative. -/
theorem haversine_symm_self_nonneg (lat1 lon1 lat2 lon2 : ℝ) :
    haversine lat1 lon1 lat2 lon2 = haversine lat2 lon2 lat1 lon1 ∧
    haversine lat1 lon1 lat1 lon1 = 0 ∧
    0 ≤ haversine lat1 lon1 lat2 lon2 := by
  refine ⟨?_, ?_, ?_⟩
  · unfold haversine
    have h1 : radians (lat1 - lat2) = -radians (lat2 - lat1) := by
      unfold radians; ring
    have h2 : radians (lon1 - lon2) = -radians (lon2 - lon1) := by
      unfold radians; ring
    simp only [h1, h2, neg_div, Real.sin_neg, neg_sq]
    ring_nf
  · unfold haversine
    have hz : radians (lat1 - lat1) = 0 := by unfold radians; ring
    have hz2 : radians (lon1 - lon1) = 0 := by unfold radians; ring
    simp only [hz, hz2, zero_div, Real.sin_zero]
    have ha : (0 : ℝ) ^ 2 + Real.cos (radians lat1) * Real.cos (radians lat1) *
        (0 : ℝ) ^ 2 = 0 := by ring
    rw [ha]
    rw [Real.sqrt_zero, sub_zero, Real.sqrt_one]
    have harg : atan2 0 1 = 0 := by
      unfold atan2
      have : (⟨1, 0⟩ : ℂ) = 1 := Complex.ext rfl rfl
      rw [this, Complex.arg_one]
    rw [harg]; ring
  · unfold haversine
    have him : 0 ≤ (⟨Real.sqrt (1 - (Real.sin (radians (lat2 - lat1) / 2) ^ 2 +
        Real.cos (radians lat1) * Real.cos (radians lat2) *
          Real.sin (radians (lon2 - lon1) / 2) ^ 2)),
        Real.sqrt (Real.sin (radians (lat2 - lat1) / 2) ^ 2 +
        Real.cos (radians lat1) * Real.cos (radians lat2) *
          Real.sin (radians (lon2 - lon1) / 2) ^ 2)⟩ : ℂ).im :=
      Real.sqrt_nonneg _
    have harg := Complex.arg_nonneg_iff.mpr him
    unfold atan2
    positivity

/-! ## StationFinder: src/src/services/noaa_station.py -/

/-- One entry of the station directory response (results[].id/name/
latitude/longitude). -/
structure Station where
  id : String
  name : String
  latitude : ℝ
  longitude : ℝ

/-- The per-candidate header probe pd.read_csv(csv_url, nrows=1),
abstracted as an oracle from the station id to the header columns;
none models any raised exception (missing or malformed CSV). -/
def hasNormalsHeader (probe : String → Option (List String)) (s : Station) : Bool :=
  match probe s.id with
  | some cols => "DLY-TMAX-NORMAL" ∈ cols
  | none => false

/-- One insertion step of the stable sort stations.sort(key=...). -/
noncomputable def insortKeyed (key : Station → ℝ) (x : Station) :
    List Station → List Station
  | [] => [x]
  | y :: ys => if key x ≤ key y then x :: y :: ys else y :: insortKeyed key x ys

/-- stations.sort(key=lambda s: haversine(...)): stable sort by a real
key, modelled as insertion sort. -/
noncomputable def sortByKey (key : Station → ℝ) : List Station → List Station
  | [] => []
  | x :: xs => insortKeyed key x (sortByKey key xs)

/-- The scan loop of get_closest_station_with_normals: return the first
station whose probe yields a header containing DLY-TMAX-NORMAL; a probe
exception (none) continues with the next candidate. -/
def scanStations (probe : String → Option (List String)) :
    List Station → Except Err (String × String × ℝ × ℝ)
  | [] => .error .NoQualifyingStation
  | s :: rest =>
    match probe s.id with
    | some cols =>
      if "DLY-TMAX-NORMAL" ∈ cols then .ok (s.id, s.name, s.latitude, s.longitude)
      else scanStations probe rest
    | none => scanStations probe rest

/-- NOAAStationService.get_closest_station_with_normals, with the
directory response (stations) and the CSV header probe as inputs. -/
noncomputable def get_closest_station_with_normals (lat lon : ℝ)
    (stations : List Station) (probe : String → Option (List String)) :
    Except Err (String × String × ℝ × ℝ) :=
  match stations with
  | [] => .error .NoStationsFound
  | _ :: _ =>
    scanStations probe
      (sortByKey (fun s => haversine lat lon s.latitude s.longitude) stations)

lemma mem_insortKeyed (key : Station → ℝ) (x : Station) (l : List Station)
    (t : Station) : t ∈ insortKeyed key x l ↔ t = x ∨ t ∈ l := by
  induction l with
  | nil => simp [insortKeyed]
  | cons y ys ih =>
    unfold insortKeyed
    by_cases h : key x ≤ key y
    · simp [h]
    · simp only [if_neg h, List.mem_cons, ih]
      tauto

lemma mem_sortByKey (key : Station → ℝ) (l : List Station) (t : Station) :
    t ∈ sortByKey key l ↔ t ∈ l := by
  induction l with
  | nil => simp [sortByKey]
  | cons x xs ih =>
    unfold sortByKey
    rw [mem_insortKeyed]
    simp [ih]

lemma pairwise_insortKeyed (key : Station → ℝ) (x : Station) (l : List Station)
    (h : l.Pairwise (fun a b => key a ≤ key b)) :
    (insortKeyed key x l).Pairwise (fun a b => key a ≤ key b) := by
  induction l with
  | nil => simp [insortKeyed]
  | cons y ys ih =>
    unfold insortKeyed
    by_cases hxy : key x ≤ key y
    · rw [if_pos hxy]
      refine List.pairwise_cons.mpr ⟨?_, h⟩
      intro b hb
      rcases List.mem_cons.mp hb with rfl | hb
      · exact hxy
      · exact le_trans hxy ((List.pairwise_cons.mp h).1 b hb)
    · rw [if_neg hxy]
      have hy := List.pairwise_cons.mp h
      refine List.pairwise_cons.mpr ⟨?_, ih hy.2⟩
      intro b hb
      rcases (mem_insortKeyed key x ys b).mp hb with rfl | hb
      · exact le_of_not_le hxy
      · exact hy.1 b hb

lemma pairwise_sortByKey (key : Station → ℝ) (l : List Station) :
    (sortByKey key l).Pairwise (fun a b => key a ≤ key b) := by
  induction l with
  | nil => simp [sortByKey]
  | cons x xs ih => exact pairwise_insortKeyed key x _ ih

lemma scanStations_ok (probe : String → Option (List String)) (key : Station → ℝ)
    (l : List Station) (hs : l.Pairwise (fun a b => key a ≤ key b))
    (i n : String) (la lo : ℝ)
    (h : scanStations probe l = .ok (i, n, la, lo)) :
    ∃ s ∈ l, s.id = i ∧ s.name = n ∧ s.latitude = la ∧ s.longitude = lo ∧
      hasNormalsHeader probe s = true ∧
      ∀ t ∈ l, key t < key s → hasNormalsHeader probe t = false := by
  induction l with
  | nil => simp [scanStations] at h
  | cons s rest ih =>
    have hp := List.pairwise_cons.mp hs
    unfold scanStations at h
    split at h
    next cols hq =>
      split at h
      next hc =>
        obtain ⟨hi, hn, hla, hlo⟩ : s.id = i ∧ s.name = n ∧ s.latitude = la ∧
            s.longitude = lo := by
          have h2 := h
          simp only [Except.ok.injEq, Prod.mk.injEq] at h2
          exact ⟨h2.1, h2.2.1, h2.2.2.1, h2.2.2.2⟩
        refine ⟨s, List.mem_cons_self s rest, hi, hn, hla, hlo, ?_, ?_⟩
        · simp [hasNormalsHeader, hq, hc]
        · intro t ht hlt
          rcases List.mem_cons.mp ht with rfl | ht
          · exact absurd hlt (lt_irrefl _)
          · exact absurd hlt (not_lt.mpr (hp.1 t ht))
      next hc =>
        obtain ⟨u, hu, hrest⟩ := ih hp.2 h
        refine ⟨u, List.mem_cons_of_mem s hu, hrest.1, hrest.2.1, hrest.2.2.1,
          hrest.2.2.2.1, hrest.2.2.2.2.1, ?_⟩
        intro t ht hlt
        rcases List.mem_cons.mp ht with rfl | ht
        · simp [hasNormalsHeader, hq, hc]
        · exact hrest.2.2.2.2.2 t ht hlt
    next hq =>
      obtain ⟨u, hu, hrest⟩ := ih hp.2 h
      refine ⟨u, List.mem_cons_of_mem s hu, hrest.1, hrest.2.1, hrest.2.2.1,
        hrest.2.2.2.1, hrest.2.2.2.2.1, ?_⟩
      intro t ht hlt
      rcases List.mem_cons.mp ht with rfl | ht
      · simp [hasNormalsHeader, hq]
      · exact hrest.2.2.2.2.2 t ht hlt

lemma scanStations_complete (probe : String → Option (List String))
    (l : List Station) (h : ∃ s ∈ l, hasNormalsHeader probe s = true) :
    ∃ r, scanStations probe l = .ok r := by
  induction l with
  | nil => simp at h
  | cons s rest ih =>
    unfold scanStations
    split
    next cols hq =>
      by_cases hc : "DLY-TMAX-NORMAL" ∈ cols
      · exact ⟨_, by rw [if_pos hc]⟩
      · rw [if_neg hc]
        refine ih ?_
        obtain ⟨u, hu, hqu⟩ := h
        rcases List.mem_cons.mp hu with rfl | hu
        · simp [hasNormalsHeader, hq, hc] at hqu
        · exact ⟨u, hu, hqu⟩
    next hq =>
      refine ih ?_
      obtain ⟨u, hu, hqu⟩ := h
      rcases List.mem_cons.mp hu with rfl | hu
      · simp [hasNormalsHeader, hq] at hqu
      · exact ⟨u, hu, hqu⟩

/-- C1: on a non-empty candidate list, get_closest_station_with_normals
returns a candidate whose header probe succeeds with the DLY-TMAX-NORMAL
column, every candidate strictly closer (by haversine distance from the
origin) failed the probe check, and whenever some candidate passes the
probe the scan succeeds (an individual probe failure never aborts it). -/
theorem get_closest_station_correct (lat lon : ℝ) (stations : List Station)
    (probe : String → Option (List String)) (hne : stations ≠ []) :
    (∀ i n la lo,
      get_closest_station_with_normals lat lon stations probe = .ok (i, n, la, lo) →
      ∃ s ∈ stations, s.id = i ∧ s.name = n ∧ s.latitude = la ∧ s.longitude = lo ∧
        hasNormalsHeader probe s = true ∧
        ∀ t ∈ stations,
          haversine lat lon t.latitude t.longitude <
            haversine lat lon s.latitude s.longitude →
          hasNormalsHeader probe t = false) ∧
    ((∃ s ∈ stations, hasNormalsHeader probe s = true) →
      ∃ r, get_closest_station_with_normals lat lon stations probe = .ok r) := by
  constructor
  · intro i n la lo h
    match stations, hne with
    | x :: xs, _ =>
      unfold get_closest_station_with_normals at h
      obtain ⟨s, hsmem, hrest⟩ := scanStations_ok probe
        (fun s => haversine lat lon s.latitude s.longitude) _
        (pairwise_sortByKey _ _) i n la lo h
      refine ⟨s, (mem_sortByKey _ _ s).mp hsmem, hrest.1, hrest.2.1,
        hrest.2.2.1, hrest.2.2.2.1, hrest.2.2.2.2.1, ?_⟩
      intro t ht hlt
      exact hrest.2.2.2.2.2 t ((mem_sortByKey _ _ t).mpr ht) hlt
  · intro h
    match stations, hne with
    | x :: xs, _ =>
      unfold get_closest_station_with_normals
      refine scanStations_complete probe _ ?_
      obtain ⟨s, hs, hq⟩ := h
      exact ⟨s, (mem_sortByKey _ _ s).mpr hs, hq⟩

/-- A station whose CSV probe succeeds, for concrete evaluation. -/
def stationOk : Station :=
  { id := "GHCND:USW00094728", name := "NY CITY CENTRAL PARK", latitude := 40, longitude := -73 }

/-- A station whose CSV probe raises, for concrete evaluation. -/
def stationBad : Station :=
  { id := "GHCND:USW00000000", name := "NO CSV", latitude := 40, longitude := -73 }

/-- A concrete header probe: only stationOk hosts a usable CSV. -/
def probeSample : String → Option (List String) :=
  fun id => if id = "GHCND:USW00094728" then some ["DATE", "DLY-TMAX-NORMAL"] else none

theorem get_closest_station_correct_witness :
    ∃ r, get_closest_station_with_normals 40 (-73) [stationBad, stationOk]
      probeSample = .ok r :=
  (get_closest_station_correct 40 (-73) [stationBad, stationOk] probeSample
      (List.cons_ne_nil _ _)).2
    ⟨stationOk, List.mem_cons_of_mem _ (List.mem_cons_self _ _), by decide⟩

/-! ## NormalsReader: NOAAStationService.get_normals_for_today -/

/-- One row of the normals CSV, restricted to the consumed columns
DATE, DLY-TMAX-NORMAL, DLY-TMAX-STDDEV, DLY-TMIN-NORMAL,
DLY-TMIN-STDDEV (the temperature columns hold tenths of °F). -/
structure NormalsRow where
  DATE : String
  tmaxNormal : ℚ
  tmaxStddev : ℚ
  tminNormal : ℚ
  tminStddev : ℚ
  deriving DecidableEq, Repr

/-- The dict returned by get_normals_for_today. -/
structure ClimateNormals where
  high_avg : ℚ
  high_sd : ℚ
  low_avg : ℚ
  low_sd : ℚ
  deriving DecidableEq, Repr

/-- Two-digit zero padding, one field of strftime. -/
def pad2 (n : ℕ) : String := if n < 10 then "0" ++ toString n else toString n

/-- Model of pd.Timestamp.now().strftime("%m-%d") applied to a given
month and day. -/
def formatMonthDay (month day : ℕ) : String := pad2 month ++ "-" ++ pad2 day

/-- NOAAStationService.get_normals_for_today, with the parsed CSV rows
and the current month-day as inputs. The row selection df[df["DATE"] ==
today_md].iloc[0] takes the first matching row and raises on an empty
selection. -/
def get_normals_for_today (rows : List NormalsRow) (month day : ℕ) :
    Except Err ClimateNormals :=
  match rows.filter (fun r => r.DATE == formatMonthDay month day) with
  | [] => .error .NormalsRowMissing
  | row :: _ =>
    .ok { high_avg := row.tmaxNormal / 10
        , high_sd := (row.tmaxNormal + row.tmaxStddev) / 10
        , low_avg := row.tminNormal / 10
        , low_sd := (row.tminNormal - row.tminStddev) / 10 }

/-- C3: when the date filter selects a first row, the returned normals
are exactly max_normal/10, (max_normal + max_stddev)/10, min_normal/10
and (min_normal - min_stddev)/10. -/
theorem get_normals_fields (rows : List NormalsRow) (month day : ℕ)
    (row : NormalsRow) (rest : List NormalsRow)
    (h : rows.filter (fun r => r.DATE == formatMonthDay month day) = row :: rest) :
    get_normals_for_today rows month day = .ok
      { high_avg := row.tmaxNormal / 10
      , high_sd := (row.tmaxNormal + row.tmaxStddev) / 10
      , low_avg := row.tminNormal / 10
      , low_sd := (row.tminNormal - row.tminStddev) / 10 } := by
  unfold get_normals_for_today
  rw [h]

/-- A concrete normals row dated October 12, values in tenths of °F. -/
def rowSample : NormalsRow :=
  { DATE := "10-12", tmaxNormal := 750, tmaxStddev := 50,
    tminNormal := 600, tminStddev := 50 }

theorem get_normals_fields_witness :
    get_normals_for_today [rowSample] 10 12 = .ok
      { high_avg := 75, high_sd := 80, low_avg := 60, low_sd := 55 } := by
  have h := get_normals_fields [rowSample] 10 12 rowSample [] (by decide)
  rw [h]
  norm_num [rowSample]

/-- C7: get_normals_for_today fails with NormalsRowMissing exactly when
no row's DATE equals the target day formatted as "MM-DD", and on
success the selected row's DATE equals that month-day key. -/
theorem get_normals_row_missing (rows : List NormalsRow) (month day : ℕ) :
    (get_normals_for_today rows month day = .error .NormalsRowMissing ↔
      ∀ r ∈ rows, r.DATE ≠ formatMonthDay month day) ∧
    (∀ n, get_normals_for_today rows month day = .ok n →
      ∃ row ∈ rows, row.DATE = formatMonthDay month day) := by
  rcases hf : rows.filter (fun r => r.DATE == formatMonthDay month day) with _ | ⟨row, rest⟩
  · have hget : get_normals_for_today rows month day = .error .NormalsRowMissing := by
      unfold get_normals_for_today
      rw [hf]
    constructor
    · rw [hget]
      simp only [true_iff]
      intro r hr
      have := List.filter_eq_nil_iff.mp hf r hr
      simpa using this
    · intro n hn
      rw [hget] at hn
      exact absurd hn (by simp)
  · have hmem : row ∈ rows.filter (fun r => r.DATE == formatMonthDay month day) := by
      rw [hf]; exact List.mem_cons_self _ _
    have hrow := List.mem_filter.mp hmem
    have hdate : row.DATE = formatMonthDay month day := by
      have := hrow.2
      simpa using this
    have hget : get_normals_for_today rows month day = .ok
        { high_avg := row.tmaxNormal / 10
        , high_sd := (row.tmaxNormal + row.tmaxStddev) / 10
        , low_avg := row.tminNormal / 10
        , low_sd := (row.tminNormal - row.tminStddev) / 10 } := by
      unfold get_normals_for_today
      rw [hf]
    constructor
    · rw [hget]
      constructor
      · intro h
        exact absurd h (by simp)
      · intro hall
        exact absurd hdate (hall row hrow.1)
    · intro n _
      exact ⟨row, hrow.1, hdate⟩

theorem get_normals_row_missing_witness :
    get_normals_for_today [] 1 2 = .error .NormalsRowMissing :=
  (get_normals_row_missing [] 1 2).1.mpr (by simp)

/-! ## ConditionsFetcher: src/src/services/weather_gov.py -/

/-- A calendar date, the model of datetime.date. -/
structure Date where
  year : ℤ
  month : ℕ
  day : ℕ
  deriving DecidableEq, Repr

/-- One forecast period, restricted to the consumed fields: the calendar
date of its startTime and its temperature (already °F in the API). -/
structure ForecastPeriod where
  startDate : Date
  temperature : ℚ
  deriving DecidableEq, Repr

/-- The consumed fields of the latest-observation payload; temperature
values are °C and nullable. -/
structure Observation where
  timestamp : String
  temperature : Option ℚ
  maxTemp24 : Option ℚ
  minTemp24 : Option ℚ
  windSpeed : Option ℚ
  textDescription : String
  deriving DecidableEq, Repr

/-- The consumed fields of the point metadata payload. -/
structure PointMeta where
  city : String
  state : String
  distanceMeters : ℚ
  deriving DecidableEq, Repr

/-- One entry of the observation-stations feature list. -/
structure Feature where
  stationIdentifier : String
  deriving DecidableEq, Repr

/-- The dict returned by get_current_conditions. -/
structure CurrentConditions where
  station : String
  citystate : String
  distance : ℚ
  timestamp : String
  temperature_F : Option ℚ
  highlow : ℚ × ℚ
  wind_speed_mps : Option ℚ
  text_description : String
  deriving DecidableEq, Repr

/-- Python max over a list: none models the ValueError raised on an
empty sequence. -/
def pymax : List ℚ → Option ℚ
  | [] => none
  | a :: as => some (as.foldl max a)

/-- Python min over a list: none models the ValueError raised on an
empty sequence. -/
def pymin : List ℚ → Option ℚ
  | [] => none
  | a :: as => some (as.foldl min a)

/-- The subset of forecast periods whose startTime falls on today,
mapped to their temperatures. -/
def forecastTempsToday (periods : List ForecastPeriod) (today : Date) : List ℚ :=
  (periods.filter (fun e => e.startDate == today)).map ForecastPeriod.temperature

/-- WeatherGovService.get_current_conditions, with the decoded upstream
payloads (point metadata, station feature list, latest observation,
forecast periods) as inputs. -/
def get_current_conditions (pm : PointMeta) (stationFeats : List Feature)
    (obs : Observation) (forecastPeriods : List ForecastPeriod) (today : Date) :
    Except Err CurrentConditions :=
  match stationFeats with
  | [] => .error .NoObservationStation
  | feat :: _ =>
    let temps := forecastTempsToday forecastPeriods today
    match pymax temps, pymin temps with
    | some f_high, some f_low =>
      let cur_f : Option ℚ := match obs.temperature with
        | some v => some (v * 9 / 5 + 32)
        | none => none
      let max24_f : Option ℚ := match obs.maxTemp24 with
        | some v => some (v * 9 / 5 + 32)
        | none => cur_f
      let min24_f : Option ℚ := match obs.minTemp24 with
        | some v => some (v * 9 / 5 + 32)
        | none => cur_f
      let high := match max24_f with | some m => max f_high m | none => f_high
      let low := match min24_f with | some m => min f_low m | none => f_low
      .ok { station := feat.stationIdentifier
          , citystate := pm.city ++ ", " ++ pm.state
          , distance := pm.distanceMeters / 1000
          , timestamp := obs.timestamp
          , temperature_F := cur_f
          , highlow := (high, low)
          , wind_speed_mps := obs.windSpeed
          , text_description := obs.textDescription }
    | _, _ => .error .NoForecastForToday

lemma foldl_max_mem (a : ℚ) (as : List ℚ) : as.foldl max a ∈ a :: as := by
  induction as generalizing a with
  | nil => simp
  | cons b bs ih =>
    simp only [List.foldl_cons]
    rcases List.mem_cons.mp (ih (max a b)) with he | hmem
    · rcases max_choice a b with hm | hm
      · rw [he, hm]; exact List.mem_cons_self _ _
      · rw [he, hm]; exact List.mem_cons_of_mem _ (List.mem_cons_self _ _)
    · exact List.mem_cons_of_mem _ (List.mem_cons_of_mem _ hmem)

lemma le_foldl_max (a : ℚ) (as : List ℚ) : ∀ x ∈ a :: as, x ≤ as.foldl max a := by
  induction as generalizing a with
  | nil =>
    intro x hx
    rcases List.mem_cons.mp hx with rfl | hx2
    · simp
    · simp at hx2
  | cons b bs ih =>
    intro x hx
    simp only [List.foldl_cons]
    rcases List.mem_cons.mp hx with rfl | hx2
    · exact le_trans (le_max_left x b) (ih (max x b) _ (List.mem_cons_self _ _))
    · rcases List.mem_cons.mp hx2 with rfl | hx3
      · exact le_trans (le_max_right a x) (ih (max a x) _ (List.mem_cons_self _ _))
      · exact ih (max a b) x (List.mem_cons_of_mem _ hx3)

lemma foldl_min_mem (a : ℚ) (as : List ℚ) : as.foldl min a ∈ a :: as := by
  induction as generalizing a with
  | nil => simp
  | cons b bs ih =>
    simp only [List.foldl_cons]
    rcases List.mem_cons.mp (ih (min a b)) with he | hmem
    · rcases min_choice a b with hm | hm
      · rw [he, hm]; exact List.mem_cons_self _ _
      · rw [he, hm]; exact List.mem_cons_of_mem _ (List.mem_cons_self _ _)
    · exact List.mem_cons_of_mem _ (List.mem_cons_of_mem _ hmem)

lemma foldl_min_le (a : ℚ) (as : List ℚ) : ∀ x ∈ a :: as, as.foldl min a ≤ x := by
  induction as generalizing a with
  | nil =>
    intro x hx
    rcases List.mem_cons.mp hx with rfl | hx2
    · simp
    · simp at hx2
  | cons b bs ih =>
    intro x hx
    simp only [List.foldl_cons]
    rcases List.mem_cons.mp hx with rfl | hx2
    · exact le_trans (ih (min x b) _ (List.mem_cons_self _ _)) (min_le_left x b)
    · rcases List.mem_cons.mp hx2 with rfl | hx3
      · exact le_trans (ih (min a x) _ (List.mem_cons_self _ _)) (min_le_right a x)
      · exact ih (min a b) x (List.mem_cons_of_mem _ hx3)

lemma pymax_eq_none_iff (l : List ℚ) : pymax l = none ↔ l = [] := by
  cases l <;> simp [pymax]

lemma pymin_eq_none_iff (l : List ℚ) : pymin l = none ↔ l = [] := by
  cases l <;> simp [pymin]

lemma pymax_spec (l : List ℚ) (m : ℚ) (h : pymax l = some m) :
    m ∈ l ∧ ∀ x ∈ l, x ≤ m := by
  match l with
  | [] => simp [pymax] at h
  | a :: as =>
    have hm : m = as.foldl max a := by
      simpa [pymax, eq_comm] using h
    subst hm
    exact ⟨foldl_max_mem a as, le_foldl_max a as⟩

lemma pymin_spec (l : List ℚ) (m : ℚ) (h : pymin l = some m) :
    m ∈ l ∧ ∀ x ∈ l, m ≤ x := by
  match l with
  | [] => simp [pymin] at h
  | a :: as =>
    have hm : m = as.foldl min a := by
      simpa [pymin, eq_comm] using h
    subst hm
    exact ⟨foldl_min_mem a as, foldl_min_le a as⟩

/-- C8: with a nonempty station feature list, get_current_conditions
fails with NoForecastForToday exactly when no forecast period starts on
today, and on success the internal forecast high/low are the maximum and
minimum of the temperatures of today's periods. -/
theorem get_current_conditions_forecast (pm : PointMeta) (feats : List Feature)
    (obs : Observation) (periods : List ForecastPeriod) (today : Date)
    (hne : feats ≠ []) :
    (get_current_conditions pm feats obs periods today =
        .error .NoForecastForToday ↔
      periods.filter (fun e => e.startDate == today) = []) ∧
    (∀ r, get_current_conditions pm feats obs periods today = .ok r →
      ∃ f_high f_low,
        pymax (forecastTempsToday periods today) = some f_high ∧
        pymin (forecastTempsToday periods today) = some f_low ∧
        f_high ∈ forecastTempsToday periods today ∧
        (∀ t ∈ forecastTempsToday periods today, t ≤ f_high) ∧
        f_low ∈ forecastTempsToday periods today ∧
        (∀ t ∈ forecastTempsToday periods today, f_low ≤ t)) := by
  match feats, hne with
  | feat :: rest, _ =>
    rcases htemp : forecastTempsToday periods today with _ | ⟨t0, ts⟩
    · have hfil : periods.filter (fun e => e.startDate == today) = [] :=
        List.map_eq_nil_iff.mp htemp
      constructor
      · rw [iff_true_intro hfil, iff_true]
        simp [get_current_conditions, htemp, pymax, pymin]
      · intro r hr
        simp [get_current_conditions, htemp, pymax, pymin] at hr
    · constructor
      · constructor
        · intro h
          simp [get_current_conditions, htemp, pymax, pymin] at h
        · intro hfil
          have : forecastTempsToday periods today = [] := by
            unfold forecastTempsToday
            rw [hfil]; rfl
          rw [this] at htemp
          cases htemp
      · intro r _
        refine ⟨ts.foldl max t0, ts.foldl min t0, rfl, rfl, ?_, ?_, ?_, ?_⟩
        · exact foldl_max_mem t0 ts
        · exact le_foldl_max t0 ts
        · exact foldl_min_mem t0 ts
        · exact foldl_min_le t0 ts

/-- C2: on success with a non-null current temperature, the returned
high is max(forecast_high, max24_F) and the returned low is
min(forecast_low, min24_F), where the 24-hour extremes fall back to the
current temperature when null (all converted to °F). -/
theorem get_current_conditions_highlow (pm : PointMeta) (feats : List Feature)
    (obs : Observation) (periods : List ForecastPeriod) (today : Date)
    (tc f_high f_low : ℚ) (r : CurrentConditions)
    (htc : obs.temperature = some tc)
    (hmax : pymax (forecastTempsToday periods today) = some f_high)
    (hmin : pymin (forecastTempsToday periods today) = some f_low)
    (hok : get_current_conditions pm feats obs periods today = .ok r) :
    r.highlow = (max f_high (obs.maxTemp24.getD tc * 9 / 5 + 32),
                 min f_low (obs.minTemp24.getD tc * 9 / 5 + 32)) := by
  match feats with
  | [] => simp [get_current_conditions] at hok
  | feat :: rest =>
    rcases hm24 : obs.maxTemp24 with _ | v <;>
      rcases hn24 : obs.minTemp24 with _ | w <;>
      (simp only [get_current_conditions, hmax, hmin, htc, hm24, hn24,
        Except.ok.injEq] at hok;
       subst hok;
       simp [hm24, hn24])

/-- Concrete point metadata for evaluation. -/
def pmSample : PointMeta :=
  { city := "New York", state := "NY", distanceMeters := 5000 }

/-- Concrete observation-station feature for evaluation. -/
def featSample : Feature := { stationIdentifier := "KNYC" }

/-- Concrete latest observation for evaluation: 20 °C now, 25 °C 24h
max, null 24h min. -/
def obsSample : Observation :=
  { timestamp := "2026-10-12T14:00:00+00:00", temperature := some 20,
    maxTemp24 := some 25, minTemp24 := none, windSpeed := some 3,
    textDescription := "Sunny" }

/-- Concrete target date for evaluation. -/
def daySample : Date := { year := 2026, month := 10, day := 12 }

/-- One forecast period on the target date, 80 °F. -/
def periodsSample : List ForecastPeriod :=
  [ { startDate := daySample, temperature := 80 } ]

/-- The conditions record produced on the sample inputs, with its
arithmetic kept unevaluated. -/
def condSample : CurrentConditions :=
  { station := "KNYC", citystate := "New York, NY",
    distance := 5000 / 1000,
    timestamp := "2026-10-12T14:00:00+00:00",
    temperature_F := some ((20 : ℚ) * 9 / 5 + 32),
    highlow := (max 80 ((25 : ℚ) * 9 / 5 + 32), min 80 ((20 : ℚ) * 9 / 5 + 32)),
    wind_speed_mps := some 3, text_description := "Sunny" }

theorem get_current_conditions_highlow_witness :
    condSample.highlow = (max 80 (obsSample.maxTemp24.getD 20 * 9 / 5 + 32),
      min 80 (obsSample.minTemp24.getD 20 * 9 / 5 + 32)) :=
  get_current_conditions_highlow pmSample [featSample] obsSample periodsSample
    daySample 20 80 80 condSample rfl rfl rfl rfl

theorem get_current_conditions_forecast_witness :
    get_current_conditions pmSample [featSample] obsSample [] daySample =
      .error .NoForecastForToday :=
  (get_current_conditions_forecast pmSample [featSample] obsSample [] daySample
    (List.cons_ne_nil _ _)).1.mpr rfl

/-! ## DeltaComputer and presentation: src/src/main.py -/

/-- The ANSI colour configuration of src/config.py (the module is not
part of the tracked sources; only the names of its constants are used,
so the values are parameters of the model). -/
structure Colours where
  RED : String
  CYAN : String
  GREEN : String
  YELLOW : String
  RESET : String
  deriving DecidableEq, Repr

/-- Round to the nearest integer with ties to even, the rounding of
Python float formatting. -/
def roundHalfEven (q : ℚ) : ℤ :=
  if q - Int.floor q = 1 / 2 then
    (if Int.floor q % 2 = 0 then Int.floor q else Int.floor q + 1)
  else round q

/-- Model of the Python format spec "{:.1f}": one digit after the
decimal point, ties to even. -/
def formatFixed1 (q : ℚ) : String :=
  let n := roundHalfEven (q * 10)
  (if n < 0 then "-" else "") ++
    toString (n.natAbs / 10) ++ "." ++ toString (n.natAbs % 10)

/-- main.colourize: wrap a temperature delta in the proper colour. -/
def colourize (C : Colours) (delta : ℚ)
    (positive_color negative_color : String) : String :=
  if delta > 0 then
    positive_color ++ formatFixed1 delta ++ "°F warmer" ++ C.RESET
  else if delta < 0 then
    negative_color ++ formatFixed1 (-delta) ++ "°F cooler" ++ C.RESET
  else
    C.GREEN ++ "no change" ++ C.RESET

/-- C5: colourize is a three-way classification on the sign of delta:
strictly positive renders "warmer by delta", strictly negative renders
"cooler by -delta", and exactly zero renders the distinct "no change"
text, never one of the other two branches. -/
theorem colourize_classification (C : Colours) (delta : ℚ)
    (pc nc : String) :
    (0 < delta → colourize C delta pc nc =
      pc ++ formatFixed1 delta ++ "°F warmer" ++ C.RESET) ∧
    (delta < 0 → colourize C delta pc nc =
      nc ++ formatFixed1 (-delta) ++ "°F cooler" ++ C.RESET) ∧
    (delta = 0 → colourize C delta pc nc =
      C.GREEN ++ "no change" ++ C.RESET) := by
  refine ⟨?_, ?_, ?_⟩ <;> intro h <;> unfold colourize
  · rw [if_pos h]
  · rw [if_neg (not_lt.mpr h.le), if_pos h]
  · subst h
    rw [if_neg (lt_irrefl 0), if_neg (lt_irrefl 0)]

/-- A concrete colour configuration for evaluation. -/
def coloursSample : Colours :=
  { RED := "[R]", CYAN := "[C]", GREEN := "[G]", YELLOW := "[Y]", RESET := "[Z]" }

theorem colourize_classification_witness :
    colourize coloursSample (5 / 2) "[R]" "[C]" =
      "[R]" ++ formatFixed1 (5 / 2) ++ "°F warmer" ++ "[Z]" ∧
    colourize coloursSample (-1) "[R]" "[C]" =
      "[C]" ++ formatFixed1 (-(-1)) ++ "°F cooler" ++ "[Z]" ∧
    colourize coloursSample 0 "[R]" "[C]" = "[G]" ++ "no change" ++ "[Z]" :=
  ⟨(colourize_classification coloursSample (5 / 2) "[R]" "[C]").1 (by norm_num),
   (colourize_classification coloursSample (-1) "[R]" "[C]").2.1 (by norm_num),
   (colourize_classification coloursSample 0 "[R]" "[C]").2.2 rfl⟩

/-- The DeltaResult of spec section 3, as computed inline by main. -/
structure DeltaResult where
  delta_high : ℚ
  delta_low : ℚ
  high_in_range : Bool
  low_in_range : Bool
  deriving DecidableEq, Repr

/-- The delta and 1σ-range computation of main (src/src/main.py,
steps 6 and 7): deltas against the normal averages and the two
in-range comparisons against the 1σ bounds. -/
def compareDelta (currentHigh currentLow : ℚ) (normals : ClimateNormals) :
    DeltaResult :=
  { delta_high := currentHigh - normals.high_avg
  , delta_low := currentLow - normals.low_avg
  , high_in_range := decide (currentHigh ≤ normals.high_sd)
  , low_in_range := decide (currentLow ≥ normals.low_sd) }

/-- C4: high_in_range holds exactly when the current high is at most
high_sd, low_in_range holds exactly when the current low is at least
low_sd, and equality at either boundary counts as in range. -/
theorem compareDelta_in_range (ch cl : ℚ) (n : ClimateNormals) :
    ((compareDelta ch cl n).high_in_range = true ↔ ch ≤ n.high_sd) ∧
    ((compareDelta ch cl n).low_in_range = true ↔ n.low_sd ≤ cl) ∧
    (ch = n.high_sd → (compareDelta ch cl n).high_in_range = true) ∧
    (cl = n.low_sd → (compareDelta ch cl n).low_in_range = true) := by
  refine ⟨?_, ?_, ?_, ?_⟩
  · simp [compareDelta]
  · simp [compareDelta, ge_iff_le]
  · intro h
    simp [compareDelta, h]
  · intro h
    simp [compareDelta, h]

/-- The normals record of the spec's end-to-end scenario. -/
def normalsSample : ClimateNormals :=
  { high_avg := 75, high_sd := 80, low_avg := 60, low_sd := 55 }

theorem compareDelta_in_range_witness :
    (compareDelta 80 55 normalsSample).high_in_range = true ∧
    (compareDelta 80 55 normalsSample).low_in_range = true :=
  ⟨(compareDelta_in_range 80 55 normalsSample).2.2.1 rfl,
   (compareDelta_in_range 80 55 normalsSample).2.2.2 rfl⟩

/-! ## LocationResolver: src/src/services/zip_lookup.py and the ZIP
resolution step of main -/

/-- One entry of the geocoder's places array; only "post code" is
consumed by city_state_to_zip. -/
structure Place where
  postCode : String
  deriving DecidableEq, Repr

/-- The outcome of one geocoder HTTP request: raises models a raised
exception (network failure); resp carries the status code and the
decoded places array, where none models a body on which json() or the
"places" key access raises. -/
inductive GeoResp where
  | raises
  | resp (status : ℕ) (places : Option (List Place))
  deriving DecidableEq, Repr

/-- A raised Python exception, as far as the caller can observe it. -/
inductive PyExc where
  | exc
  deriving DecidableEq, Repr

/-- Model of Python str.split(",") over the character list: every comma
is a separator and "".split(",") is [""]. -/
def splitCommaAux : List Char → List Char → List String
  | [], acc => [String.mk acc.reverse]
  | c :: cs, acc =>
    if c = ',' then String.mk acc.reverse :: splitCommaAux cs []
    else splitCommaAux cs (c :: acc)

/-- Python city_state.split(","). -/
def splitComma (s : String) : List String := splitCommaAux s.data []

/-- Model of Python str.strip(): drop whitespace from both ends. -/
def pyStrip (s : String) : String :=
  String.mk
    (((s.data.dropWhile Char.isWhitespace).reverse.dropWhile
      Char.isWhitespace).reverse)

/-- The body of the try block of ZipLookupService.city_state_to_zip:
the two-element unpacking, the geocoder request and the places[0]
access, each raising into Except; the non-200 path falls through to
return None. -/
def city_state_to_zip_attempt (city_state : String)
    (get : String → String → GeoResp) : Except PyExc (Option String) :=
  match (splitComma city_state).map pyStrip with
  | [city, state] =>
    match get state city with
    | .raises => .error .exc
    | .resp status places =>
      if status = 200 then
        match places with
        | none => .error .exc
        | some [] => .error .exc
        | some (p :: _) => .ok (some p.postCode)
      else .ok none
  | _ => .error .exc

/-- ZipLookupService.city_state_to_zip: the try/except wrapper that
turns every raised exception into the same None the not-found path
returns. -/
def city_state_to_zip (city_state : String)
    (get : String → String → GeoResp) : Option String :=
  match city_state_to_zip_attempt city_state get with
  | .ok r => r
  | .error _ => none

/-- The ZIP resolution step of main (src/src/main.py step 1): a
5-digit input is used directly; otherwise city_state_to_zip is called
and a None result exits with one generic message. -/
def mainResolveZip (loc : String) (get : String → String → GeoResp) :
    Except String String :=
  if loc.length == 5 && loc.data.all Char.isDigit then .ok loc
  else
    match city_state_to_zip loc get with
    | some z => .ok z
    | none => .error "Could not resolve city/state to a ZIP code."

/-- A geocoder that answers every query with status 200 and one place. -/
def geoAlwaysOk : String → String → GeoResp :=
  fun _ _ => .resp 200 (some [{ postCode := "62704" }])

/-- A geocoder that answers every query with status 404. -/
def geoNotFound : String → String → GeoResp := fun _ _ => .resp 404 none

/-- C6 counterexample: the input "Springfield" (no comma, not 5 digits)
does not produce a distinct InvalidInput error: city_state_to_zip
swallows the unpacking failure into None even when the geocoder works,
and main then exits with the very message used for a failed lookup, so
the malformed input is reported exactly like the lookup failure of
"Springfield, IL" against a 404 geocoder. -/
theorem city_state_to_zip_no_invalid_input :
    city_state_to_zip "Springfield" geoAlwaysOk = none ∧
    mainResolveZip "Springfield" geoAlwaysOk =
      .error "Could not resolve city/state to a ZIP code." ∧
    mainResolveZip "Springfield" geoAlwaysOk =
      mainResolveZip "Springfield, IL" geoNotFound :=
  ⟨rfl, rfl, rfl⟩

lemma city_state_to_zip_attempt_not_two (loc : String)
    (get : String → String → GeoResp)
    (h : (splitComma loc).length ≠ 2) :
    city_state_to_zip_attempt loc get = .error .exc := by
  unfold city_state_to_zip_attempt
  split
  next city state heq =>
    exfalso
    apply h
    have : ((splitComma loc).map pyStrip).length = 2 := by rw [heq]; rfl
    rwa [List.length_map] at this
  next => rfl

/-- C6 amended: an input that is not 5 digits and does not split into
exactly two comma-separated parts is not silently truncated and gets no
distinct error: city_state_to_zip catches the unpacking failure and
returns None, and main reports it with the same generic resolution exit
message used for a failed lookup. -/
theorem city_state_to_zip_malformed (loc : String)
    (get : String → String → GeoResp)
    (hsplit : (splitComma loc).length ≠ 2)
    (hdig : (loc.length == 5 && loc.data.all Char.isDigit) = false) :
    city_state_to_zip loc get = none ∧
    mainResolveZip loc get =
      .error "Could not resolve city/state to a ZIP code." := by
  have hz : city_state_to_zip loc get = none := by
    unfold city_state_to_zip
    rw [city_state_to_zip_attempt_not_two loc get hsplit]
  refine ⟨hz, ?_⟩
  unfold mainResolveZip
  rw [hdig]
  simp only [Bool.false_eq_true, if_false, hz]

theorem city_state_to_zip_malformed_witness :
    city_state_to_zip "abc" geoNotFound = none ∧
    mainResolveZip "abc" geoNotFound =
      .error "Could not resolve city/state to a ZIP code." :=
  city_state_to_zip_malformed "abc" geoNotFound (by decide) (by decide)

/-- C10: city_state_to_zip never propagates an exception: every raising
run of its body is caught and returned as None, a ZIP is returned only
when the body returned one, and the result of a malformed input is
identical to the result of a well-formed lookup whose geocoder request
raises, so the caller cannot tell the two apart. -/
theorem city_state_to_zip_total (input : String)
    (get : String → String → GeoResp) :
    (∀ e, city_state_to_zip_attempt input get = .error e →
      city_state_to_zip input get = none) ∧
    (∀ z, city_state_to_zip input get = some z →
      city_state_to_zip_attempt input get = .ok (some z)) ∧
    city_state_to_zip "Springfield" get =
      city_state_to_zip "Nowhere, ZZ" (fun _ _ => GeoResp.raises) := by
  refine ⟨?_, ?_, rfl⟩
  · intro e he
    unfold city_state_to_zip
    rw [he]
  · intro z hz
    unfold city_state_to_zip at hz
    split at hz
    next o ha => rw [ha, hz]
    next e ha => exact absurd hz (by simp)

theorem city_state_to_zip_total_witness :
    city_state_to_zip "Springfield" geoAlwaysOk = none :=
  (city_state_to_zip_total "Springfield" geoAlwaysOk).1 .exc rfl

end ClimateDelta
